import Mathlib

/-!
Verification of the search subsystem of the snippet organizer:
the orchestrator `AdvancedSearchEngine` (src/core/search/advanced_search_engine.py)
and the full-text manager `FTS5Manager` (src/core/search/fts5_manager.py).

The relational store and the FTS5 virtual table are modelled as a `DB` record:
rows are Lean lists, the opaque FTS5 `MATCH`/`bm25` behaviour is a pair of
functions carried in the record, and SQL queries become list pipelines
(filter, sort, drop/take for OFFSET/LIMIT).  ISO date strings compared by
SQLite's `DATE(..) >= ?` are modelled as naturals ordered the same way
(lexicographic order on ISO dates agrees with chronological order).
Wall-clock time measured by `time.time()` is an ambient input, threaded into
`search` as an explicit parameter `elapsed`, and `float` milliseconds are
modelled as `Rat` (no floating-point arithmetic is performed on them: the
code only ever stores a measurement or the literal `0.0`).
-/

/-- One row of the `items` table.  `created_at` is the `DATE(created_at)`
value; `last_used` a timestamp, both as naturals ordered chronologically. -/
structure Item where
  id : Nat
  category_id : Option Nat
  label : String
  content : String
  type : String
  description : String
  is_favorite : Bool
  is_sensitive : Bool
  use_count : Nat
  last_used : Nat
  created_at : Nat
  is_active : Bool
deriving DecidableEq

/-- One row of the `categories` table. -/
structure Category where
  id : Nat
  name : String
  icon : String
  color : String
  is_active : Bool
deriving DecidableEq

/-- One row of the `tags` table. -/
structure Tag where
  id : Nat
  name : String
deriving DecidableEq

/-- The relational store plus the FTS5 index behaviour.
`fts_match q i` models `items_fts MATCH q` holding of the row with rowid `i`;
`bm25_weighted` models `bm25(items_fts, 10.0, 5.0, 3.0, 2.0, 1.0)` and
`bm25_plain` models `bm25(items_fts)` (rank values as integers, ascending =
more relevant); `fts_query_ok q = false` models the `sqlite3.OperationalError`
raised by FTS5 on a malformed query string. -/
structure DB where
  items : List Item
  categories : List Category
  tags : List Tag
  item_tags : List (Nat × Nat)
  fts_match : String → Nat → Bool
  bm25_weighted : String → Nat → Int
  bm25_plain : String → Nat → Int
  fts_query_ok : String → Bool

/-- Modelled from the spec: the storage collaborator's
`get_tags_by_item(item_id) -> ordered list of tag names` (the db manager is
outside the search core; §6 of the spec gives only this contract).  It
resolves the item's tag names through the `item_tags` join relation. -/
def DB.get_tags_by_item (db : DB) (item_id : Nat) : List String :=
  (db.item_tags.filter (fun p => p.1 == item_id)).filterMap
    (fun p => (db.tags.find? (fun t => t.id == p.2)).map Tag.name)

/-- `LEFT JOIN categories c ON i.category_id = c.id`. -/
def DB.categoryOf (db : DB) (i : Item) : Option Category :=
  i.category_id.bind (fun cid => db.categories.find? (fun c => c.id == cid))

/-- One result row, the dict built by the search paths
(`category_color` is selected only by `search_basic`; elsewhere the key is
absent, modelled as `none`). -/
structure SearchResult where
  id : Nat
  category_id : Option Nat
  label : String
  content : String
  type : String
  description : String
  is_favorite : Bool
  is_sensitive : Bool
  use_count : Nat
  last_used : Nat
  created_at : Nat
  category_name : Option String
  category_icon : Option String
  category_color : Option String
  rank_score : Int
  tags : List String
deriving DecidableEq

/-- Python's `str.strip()`: drop leading and trailing whitespace. -/
def pyStrip (s : String) : String :=
  ⟨((s.data.dropWhile Char.isWhitespace).reverse.dropWhile
      Char.isWhitespace).reverse⟩

/-- `pat` occurs at the start of `s`. -/
def startsWithChars : List Char → List Char → Bool
  | [], _ => true
  | _ :: _, [] => false
  | a :: as, b :: bs => a == b && startsWithChars as bs

/-- `pat` occurs somewhere in `s`. -/
def containsChars (pat : List Char) : List Char → Bool
  | [] => pat.isEmpty
  | c :: rest => startsWithChars pat (c :: rest) || containsChars pat rest

/-- `LOWER(s) LIKE LOWER('%' || q || '%')`: case-insensitive substring test
(the query is interpolated into the pattern verbatim; it is modelled as plain
text, i.e. queries are assumed free of the LIKE metacharacters `%`/`_`). -/
def likeSubstr (q s : String) : Bool :=
  containsChars (q.data.map Char.toLower) (s.data.map Char.toLower)

/-- The text clause of `_search_exact`: label or content contains the query,
or `EXISTS` a joined tag whose name contains it. -/
def exactTextMatch (db : DB) (q : String) (i : Item) : Bool :=
  likeSubstr q i.label || likeSubstr q i.content ||
    db.item_tags.any (fun p =>
      p.1 == i.id && db.tags.any (fun t => t.id == p.2 && likeSubstr q t.name))

/-- Python truthiness of an optional list (`if filters.get('item_types'):`):
an absent key and an empty list are both falsy. -/
def truthyList {α : Type} : Option (List α) → Option (List α)
  | some (x :: xs) => some (x :: xs)
  | _ => none

/-- A column name usable in the `date_range` `fields` list (interpolated as
`DATE(i.{field})` by `_search_exact`). -/
inductive DateField
  | created_at
  | last_used
deriving DecidableEq

/-- The value of the selected date column of an item. -/
def Item.dateField (i : Item) : DateField → Nat
  | .created_at => i.created_at
  | .last_used => i.last_used

/-- The modern `date_range` filter object.  `fields := none` models an absent
`fields` key (`date_range.get('fields', ['created_at'])` then defaults). -/
structure DateRange where
  date_from : Option Nat
  date_to : Option Nat
  fields : Option (List DateField)
deriving DecidableEq

/-- The filters dictionary accepted by `search`; `none` models an absent key. -/
structure Filters where
  item_types : Option (List String)
  categories : Option (List Nat)
  is_favorite : Option Bool
  is_sensitive : Option Bool
  date_from : Option Nat
  date_to : Option Nat
  date_range : Option DateRange
  min_use_count : Option Nat
deriving DecidableEq

/-- The empty filters dictionary (`filters = {}`). -/
def emptyFilters : Filters :=
  { item_types := none, categories := none, is_favorite := none,
    is_sensitive := none, date_from := none, date_to := none,
    date_range := none, min_use_count := none }

/-- The result envelope returned by `AdvancedSearchEngine.search`;
`error := none` models an absent `error` key. -/
structure Envelope where
  results : List SearchResult
  count : Nat
  execution_time_ms : Rat
  mode_used : String
  query : String
  error : Option String
deriving DecidableEq

/-- Ordering used by the FTS5 queries: `ORDER BY rank_score` (ascending). -/
def rankLe (a b : SearchResult) : Prop :=
  a.rank_score ≤ b.rank_score

instance : DecidableRel rankLe := fun a b =>
  inferInstanceAs (Decidable (a.rank_score ≤ b.rank_score))

instance : IsTotal SearchResult rankLe :=
  ⟨fun a b => Int.le_total a.rank_score b.rank_score⟩

instance : IsTrans SearchResult rankLe :=
  ⟨fun _ _ _ h h' => le_trans h h'⟩

/-- Ordering used by `_search_exact`:
`ORDER BY i.use_count DESC, i.last_used DESC`. -/
def exactLe (a b : SearchResult) : Prop :=
  b.use_count < a.use_count ∨
    (a.use_count = b.use_count ∧ b.last_used ≤ a.last_used)

instance : DecidableRel exactLe := fun a b =>
  inferInstanceAs (Decidable (_ ∨ _))

instance : IsTotal SearchResult exactLe := by
  constructor
  intro a b
  rcases Nat.lt_trichotomy a.use_count b.use_count with h | h | h
  · exact Or.inr (Or.inl h)
  · rcases Nat.le_total a.last_used b.last_used with h' | h'
    · exact Or.inr (Or.inr ⟨h.symm, h'⟩)
    · exact Or.inl (Or.inr ⟨h, h'⟩)
  · exact Or.inl (Or.inl h)

instance : IsTrans SearchResult exactLe := by
  constructor
  intro a b c hab hbc
  rcases hab with h | ⟨he, hl⟩
  · rcases hbc with h' | ⟨he', _⟩
    · exact Or.inl (lt_trans h' h)
    · exact Or.inl (he' ▸ h)
  · rcases hbc with h' | ⟨he', hl'⟩
    · exact Or.inl (he ▸ h')
    · exact Or.inr ⟨he.trans he', le_trans hl' hl⟩

/-- The result dict common to all paths, up to `rank_score`/`category_color`
(the selected columns of the three row shapes coincide elsewhere). -/
def mkResult (db : DB) (i : Item) (rank : Int) (color : Option String) :
    SearchResult :=
  { id := i.id, category_id := i.category_id, label := i.label,
    content := i.content, type := i.type, description := i.description,
    is_favorite := i.is_favorite, is_sensitive := i.is_sensitive,
    use_count := i.use_count, last_used := i.last_used,
    created_at := i.created_at,
    category_name := (db.categoryOf i).map Category.name,
    category_icon := (db.categoryOf i).map Category.icon,
    category_color := color,
    rank_score := rank,
    tags := db.get_tags_by_item i.id }

namespace FTS5Manager

/-- The WHERE clause of `FTS5Manager.search_basic`:
`items_fts MATCH ? AND i.is_active = 1`. -/
def basicPred (db : DB) (q : String) (i : Item) : Bool :=
  db.fts_match q i.id && i.is_active

/-- `FTS5Manager.search_basic(query, limit, offset)` (fts5_manager.py:40-114):
match, keep active rows, order by the weighted bm25 rank ascending,
`LIMIT ? OFFSET ?`; a malformed query (`sqlite3.OperationalError`) degrades
to the empty list. -/
def search_basic (db : DB) (query : String) (limit offset : Nat) :
    List SearchResult :=
  if db.fts_query_ok query then
    ((((db.items.filter (basicPred db query)).map
        (fun i => mkResult db i (db.bm25_weighted query i.id)
          ((db.categoryOf i).map Category.color))).insertionSort
        rankLe).drop offset).take limit
  else []

/-- The WHERE clause of `FTS5Manager.search_with_filters`
(fts5_manager.py:330-364): the MATCH clause, `i.is_active = 1`, and one
ANDed predicate per provided filter.  Truthiness of the Python guards is
kept: empty lists (`if item_types:`) disable the list filters, while the
tri-state flags and `min_use_count` use `is not None`. -/
def filtersPred (db : DB) (q : String) (item_types : Option (List String))
    (categories : Option (List Nat)) (is_favorite is_sensitive : Option Bool)
    (date_from date_to : Option Nat) (min_use_count : Option Nat)
    (i : Item) : Bool :=
  db.fts_match q i.id && i.is_active &&
  (match truthyList item_types with
   | some ts => ts.contains i.type
   | none => true) &&
  (match truthyList categories with
   | some cs =>
       match i.category_id with
       | some c => cs.contains c
       | none => false
   | none => true) &&
  (match is_favorite with
   | some b => i.is_favorite == b
   | none => true) &&
  (match is_sensitive with
   | some b => i.is_sensitive == b
   | none => true) &&
  (match date_from with
   | some d => d ≤ i.created_at
   | none => true) &&
  (match date_to with
   | some d => i.created_at ≤ d
   | none => true) &&
  (match min_use_count with
   | some m => m ≤ i.use_count
   | none => true)

/-- `FTS5Manager.search_with_filters(query, item_types, categories,
is_favorite, is_sensitive, date_from, date_to, min_use_count, limit)`
(fts5_manager.py:289-423): filtered MATCH ordered by `bm25(items_fts)`
ascending, `LIMIT ?` (no OFFSET in this query); a malformed query degrades
to the empty list. -/
def search_with_filters (db : DB) (query : String)
    (item_types : Option (List String)) (categories : Option (List Nat))
    (is_favorite is_sensitive : Option Bool) (date_from date_to : Option Nat)
    (min_use_count : Option Nat) (limit : Nat) : List SearchResult :=
  if db.fts_query_ok query then
    (((db.items.filter (filtersPred db query item_types categories is_favorite
        is_sensitive date_from date_to min_use_count)).map
        (fun i => mkResult db i (db.bm25_plain query i.id)
          none)).insertionSort rankLe).take limit
  else []

end FTS5Manager

namespace AdvancedSearchEngine

/-- The date clause built by `_search_exact` for the modern `date_range`
shape (advanced_search_engine.py:294-318): per selected field an AND of the
provided bounds, fields combined with OR; when no bound is provided (or the
field list is empty) no clause is appended. -/
def dateRangeCond (dr : DateRange) (i : Item) : Bool :=
  let fields := match dr.fields with
    | some fs => fs
    | none => [DateField.created_at]
  if (dr.date_from.isSome || dr.date_to.isSome) && !fields.isEmpty then
    fields.any (fun f =>
      (match dr.date_from with
       | some d => decide (d ≤ i.dateField f)
       | none => true) &&
      (match dr.date_to with
       | some d => decide (i.dateField f ≤ d)
       | none => true))
  else true

/-- The WHERE clause of `AdvancedSearchEngine._search_exact`
(advanced_search_engine.py:257-324): `i.is_active = 1`, the case-insensitive
substring clause over label/content/tag names, and the ANDed filters.  Note
the bare `date_from`/`date_to` keys are never read on this path: only the
modern `date_range` object contributes a date clause. -/
def exactPred (db : DB) (q : String) (filters : Filters) (i : Item) : Bool :=
  i.is_active && exactTextMatch db q i &&
  (match truthyList filters.item_types with
   | some ts => ts.contains i.type
   | none => true) &&
  (match truthyList filters.categories with
   | some cs =>
       match i.category_id with
       | some c => cs.contains c
       | none => false
   | none => true) &&
  (match filters.is_favorite with
   | some b => i.is_favorite == b
   | none => true) &&
  (match filters.is_sensitive with
   | some b => i.is_sensitive == b
   | none => true) &&
  (match filters.date_range with
   | some dr => dateRangeCond dr i
   | none => true) &&
  (match filters.min_use_count with
   | some m => m ≤ i.use_count
   | none => true)

/-- `AdvancedSearchEngine._search_exact(query, filters, limit, offset)`
(advanced_search_engine.py:233-372): LIKE-filtered scan ordered by
`i.use_count DESC, i.last_used DESC`, `LIMIT ? OFFSET ?`, sentinel
`0 as rank_score`, tags resolved per row via `get_tags_by_item`. -/
def search_exact (db : DB) (query : String) (filters : Filters)
    (limit offset : Nat) : List SearchResult :=
  ((((db.items.filter (exactPred db query filters)).map
      (fun i => mkResult db i 0 none)).insertionSort
      exactLe).drop offset).take limit

/-- `AdvancedSearchEngine._search_fts5(query, filters, limit, offset)`
(advanced_search_engine.py:179-231): extracts the filter values, prefers the
modern `date_range` object over the legacy bare keys, and delegates to
`search_with_filters` — passing `limit` but dropping `offset`. -/
def search_fts5 (db : DB) (query : String) (filters : Filters)
    (limit offset : Nat) : List SearchResult :=
  let dates : Option Nat × Option Nat :=
    match filters.date_range with
    | some dr => (dr.date_from, dr.date_to)
    | none => (filters.date_from, filters.date_to)
  FTS5Manager.search_with_filters db query filters.item_types
    filters.categories filters.is_favorite filters.is_sensitive
    dates.1 dates.2 filters.min_use_count limit

/-- `AdvancedSearchEngine._search_smart(query, filters, limit, offset)`
(advanced_search_engine.py:150-177): FTS5 first, exact substring search if
and only if FTS5 returned no rows. -/
def search_smart (db : DB) (query : String) (filters : Filters)
    (limit offset : Nat) : List SearchResult :=
  let results := search_fts5 db query filters limit offset
  if results = [] then search_exact db query filters limit offset
  else results

/-- `AdvancedSearchEngine.search(query, mode, filters, limit, offset)`
(advanced_search_engine.py:43-148).  `elapsed` is the wall-clock total
`(time.time() - start_time) * 1000` measured around the dispatch; the
empty-query and error envelopes carry the literal `0.0` instead. -/
def search (db : DB) (query : String) (mode : String)
    (filters : Option Filters) (limit offset : Nat) (elapsed : Rat) :
    Envelope :=
  if pyStrip query = "" then
    { results := [], count := 0, execution_time_ms := 0, mode_used := mode,
      query := query, error := some "Empty query" }
  else
    let q := pyStrip query
    let f := filters.getD emptyFilters
    if mode = "smart" then
      let rs := search_smart db q f limit offset
      { results := rs, count := rs.length, execution_time_ms := elapsed,
        mode_used := "smart", query := q, error := none }
    else if mode = "fts5" then
      let rs := search_fts5 db q f limit offset
      { results := rs, count := rs.length, execution_time_ms := elapsed,
        mode_used := "fts5", query := q, error := none }
    else if mode = "exact" then
      let rs := search_exact db q f limit offset
      { results := rs, count := rs.length, execution_time_ms := elapsed,
        mode_used := "exact", query := q, error := none }
    else
      { results := [], count := 0, execution_time_ms := 0, mode_used := mode,
        query := q, error := some ("Unknown search mode: " ++ mode) }

end AdvancedSearchEngine

/-! ### Concrete stores used for counterexamples and witnesses -/

/-- A single active item, favorite, with `use_count = 10`. -/
def item1 : Item :=
  { id := 1, category_id := some 1, label := "git push",
    content := "push to origin", type := "CODE", description := "",
    is_favorite := true, is_sensitive := false, use_count := 10,
    last_used := 100, created_at := 20250105, is_active := true }

/-- A store whose full-text index matches nothing (so smart mode must fall
back to the exact path), holding `item1`. -/
def dbNoFts : DB :=
  { items := [item1],
    categories := [{ id := 1, name := "Git", icon := "g", color := "red",
                     is_active := true }],
    tags := [{ id := 1, name := "vcs" }],
    item_tags := [(1, 1)],
    fts_match := fun _ _ => false,
    bm25_weighted := fun _ _ => 0,
    bm25_plain := fun _ _ => 0,
    fts_query_ok := fun _ => true }

/-- The same store with a full-text index that matches every row. -/
def dbAllFts : DB :=
  { items := [item1],
    categories := [{ id := 1, name := "Git", icon := "g", color := "red",
                     is_active := true }],
    tags := [{ id := 1, name := "vcs" }],
    item_tags := [(1, 1)],
    fts_match := fun _ _ => true,
    bm25_weighted := fun _ _ => 0,
    bm25_plain := fun _ _ => 0,
    fts_query_ok := fun _ => true }

/-! ### Helper lemmas -/

/-- Membership in a `filter → map → sort → OFFSET → LIMIT` pipeline comes
from an item of the store satisfying the row predicate. -/
theorem mem_pipeline {p : SearchResult → SearchResult → Prop} [DecidableRel p]
    {f : Item → SearchResult} {pred : Item → Bool} {items : List Item}
    {r : SearchResult} {n o : Nat}
    (h : r ∈ ((((items.filter pred).map f).insertionSort p).drop o).take n) :
    ∃ i ∈ items, pred i = true ∧ r = f i := by
  have h1 := List.mem_of_mem_drop (List.mem_of_mem_take h)
  rw [List.mem_insertionSort] at h1
  obtain ⟨i, hi, rfl⟩ := List.mem_map.1 h1
  exact ⟨i, (List.mem_filter.1 hi).1, (List.mem_filter.1 hi).2, rfl⟩

/-- Same, for the `LIMIT`-only pipeline of `search_with_filters`. -/
theorem mem_pipeline_take {p : SearchResult → SearchResult → Prop}
    [DecidableRel p] {f : Item → SearchResult} {pred : Item → Bool}
    {items : List Item} {r : SearchResult} {n : Nat}
    (h : r ∈ (((items.filter pred).map f).insertionSort p).take n) :
    ∃ i ∈ items, pred i = true ∧ r = f i := by
  have h1 := List.mem_of_mem_take h
  rw [List.mem_insertionSort] at h1
  obtain ⟨i, hi, rfl⟩ := List.mem_map.1 h1
  exact ⟨i, (List.mem_filter.1 hi).1, (List.mem_filter.1 hi).2, rfl⟩

/-- `ORDER BY` followed by `OFFSET`/`LIMIT` leaves the emitted rows sorted. -/
theorem sorted_pipeline (p : SearchResult → SearchResult → Prop)
    [DecidableRel p] [IsTotal SearchResult p] [IsTrans SearchResult p]
    (l : List SearchResult) (n o : Nat) :
    List.Sorted p (((l.insertionSort p).drop o).take n) :=
  List.Pairwise.sublist
    ((List.take_sublist n _).trans (List.drop_sublist o _))
    (List.sorted_insertionSort p l)


/-! ### Claim theorems -/

open AdvancedSearchEngine

/-- C3: for every query that is empty or whitespace-only, and any mode,
filters, limit, offset (and any wall-clock measurement), `search` returns an
envelope with `results = []`, `count = 0`, `execution_time_ms = 0.0` and
`error = "Empty query"`, without raising. -/
theorem C3_empty_query (db : DB) (query mode : String)
    (filters : Option Filters) (limit offset : Nat) (elapsed : Rat)
    (h : pyStrip query = "") :
    (search db query mode filters limit offset elapsed).results = [] ∧
    (search db query mode filters limit offset elapsed).count = 0 ∧
    (search db query mode filters limit offset elapsed).execution_time_ms = 0 ∧
    (search db query mode filters limit offset elapsed).error
      = some "Empty query" := by
  unfold search
  rw [if_pos h]
  exact ⟨rfl, rfl, rfl, rfl⟩

theorem C3_empty_query_witness :
    (search dbNoFts "  " "smart" none 100 0 0).results = [] ∧
    (search dbNoFts "  " "smart" none 100 0 0).count = 0 ∧
    (search dbNoFts "  " "smart" none 100 0 0).execution_time_ms = 0 ∧
    (search dbNoFts "  " "smart" none 100 0 0).error = some "Empty query" :=
  C3_empty_query dbNoFts "  " "smart" none 100 0 0 (by decide)

/-- C4: for every non-empty query and every mode outside the supported set,
`search` never raises: it returns an envelope with `results = []`,
`count = 0` and a non-empty error string. -/
theorem C4_unsupported_mode (db : DB) (query mode : String)
    (filters : Option Filters) (limit offset : Nat) (elapsed : Rat)
    (hq : pyStrip query ≠ "")
    (hm : mode ∉ (["smart", "fts5", "exact"] : List String)) :
    (search db query mode filters limit offset elapsed).results = [] ∧
    (search db query mode filters limit offset elapsed).count = 0 ∧
    ∃ s, (search db query mode filters limit offset elapsed).error = some s ∧
      s ≠ "" := by
  have h1 : ¬(mode = "smart") := fun h => hm (by simp [h])
  have h2 : ¬(mode = "fts5") := fun h => hm (by simp [h])
  have h3 : ¬(mode = "exact") := fun h => hm (by simp [h])
  unfold search
  rw [if_neg hq, if_neg h1, if_neg h2, if_neg h3]
  refine ⟨rfl, rfl, "Unknown search mode: " ++ mode, rfl, fun hs => ?_⟩
  have := congrArg String.data hs
  rw [String.data_append] at this
  exact absurd (List.append_eq_nil.1 this).1 (by decide)

theorem C4_unsupported_mode_witness :
    (search dbNoFts "git" "bogus" none 100 0 0).results = [] ∧
    (search dbNoFts "git" "bogus" none 100 0 0).count = 0 ∧
    ∃ s, (search dbNoFts "git" "bogus" none 100 0 0).error = some s ∧
      s ≠ "" :=
  C4_unsupported_mode dbNoFts "git" "bogus" none 100 0 0 (by decide) (by decide)

/-- C2 counterexample: `'fts'` is not a supported mode.  For the non-empty
query `"git"`, `search(query, mode='fts')` falls into the unknown-mode
branch and returns an envelope whose `error` field is set (the claim says
the envelope has no error field), with no dispatch to the full-text
strategy. -/
theorem C2_counterexample :
    (search dbAllFts "git" "fts" none 100 0 0).error
      = some "Unknown search mode: fts" ∧
    (search dbAllFts "git" "fts" none 100 0 0).results = [] := by
  constructor <;> decide

/-- C2 amended: the supported full-text mode is spelled `'fts5'`, not
`'fts'`.  For every non-empty query, `search(query, mode='fts5', ...)`
dispatches to the Full-Text Index strategy (with filters translated to its
predicate form by `_search_fts5`) and returns an envelope without an error
field; only mode values outside `{smart, fts5, exact}` fail with the
unknown-mode condition, surfaced in-band as an error envelope. -/
theorem C2_fts5_mode (db : DB) (query : String) (filters : Option Filters)
    (limit offset : Nat) (elapsed : Rat) (hq : pyStrip query ≠ "") :
    (search db query "fts5" filters limit offset elapsed).results
      = search_fts5 db (pyStrip query) (filters.getD emptyFilters)
          limit offset ∧
    (search db query "fts5" filters limit offset elapsed).error = none ∧
    (search db query "fts5" filters limit offset elapsed).mode_used
      = "fts5" ∧
    (∀ m : String, m ∉ (["smart", "fts5", "exact"] : List String) →
      (search db query m filters limit offset elapsed).error
        = some ("Unknown search mode: " ++ m)) := by
  refine ⟨?_, ?_, ?_, ?_⟩
  · unfold search
    rw [if_neg hq, if_neg (by decide : ¬("fts5" : String) = "smart"),
      if_pos rfl]
  · unfold search
    rw [if_neg hq, if_neg (by decide : ¬("fts5" : String) = "smart"),
      if_pos rfl]
  · unfold search
    rw [if_neg hq, if_neg (by decide : ¬("fts5" : String) = "smart"),
      if_pos rfl]
  · intro m hm
    have h1 : ¬(m = "smart") := fun h => hm (by simp [h])
    have h2 : ¬(m = "fts5") := fun h => hm (by simp [h])
    have h3 : ¬(m = "exact") := fun h => hm (by simp [h])
    unfold search
    rw [if_neg hq, if_neg h1, if_neg h2, if_neg h3]

theorem C2_fts5_mode_witness :
    (search dbAllFts "git" "fts5" none 100 0 0).results
      = search_fts5 dbAllFts (pyStrip "git")
          ((none : Option Filters).getD emptyFilters) 100 0 ∧
    (search dbAllFts "git" "fts5" none 100 0 0).error = none ∧
    (search dbAllFts "git" "fts5" none 100 0 0).mode_used = "fts5" ∧
    (∀ m : String, m ∉ (["smart", "fts5", "exact"] : List String) →
      (search dbAllFts "git" m none 100 0 0).error
        = some ("Unknown search mode: " ++ m)) :=
  C2_fts5_mode dbAllFts "git" none 100 0 0 (by decide)

/-- C1 counterexample: with a store whose full-text index matches nothing
(so the FTS5 strategy returns zero rows) and whose exact substring strategy
finds one row for `"git"`, `search("git", mode='smart')` does return the
exact strategy's hit (`count = 1`) — but its `mode_used` field is
`'smart'`, never `'exact'` as the claim states. -/
theorem C1_counterexample :
    search_fts5 dbNoFts "git" emptyFilters 100 0 = [] ∧
    1 ≤ (search dbNoFts "git" "smart" none 100 0 0).count ∧
    (search dbNoFts "git" "smart" none 100 0 0).mode_used ≠ "exact" := by
  refine ⟨by decide, by decide, by decide⟩

/-- C1 amended: for every non-empty query where the FTS5 strategy returns
zero rows and the exact substring strategy returns one or more rows,
`search(query, mode='smart', ...)` returns exactly the exact strategy's
result list with `count ≥ 1` — but the envelope's `mode_used` field is
`'smart'` (the orchestrator reports the requested mode, not the strategy
the fallback ended on). -/
theorem C1_smart_fallback (db : DB) (query : String)
    (filters : Option Filters) (limit offset : Nat) (elapsed : Rat)
    (hq : pyStrip query ≠ "")
    (hfts : search_fts5 db (pyStrip query) (filters.getD emptyFilters)
        limit offset = [])
    (hex : search_exact db (pyStrip query) (filters.getD emptyFilters)
        limit offset ≠ []) :
    (search db query "smart" filters limit offset elapsed).results
      = search_exact db (pyStrip query) (filters.getD emptyFilters)
          limit offset ∧
    1 ≤ (search db query "smart" filters limit offset elapsed).count ∧
    (search db query "smart" filters limit offset elapsed).mode_used
      = "smart" := by
  have hsm : search_smart db (pyStrip query) (filters.getD emptyFilters)
      limit offset
      = search_exact db (pyStrip query) (filters.getD emptyFilters)
          limit offset := by
    unfold search_smart
    rw [if_pos hfts]
  refine ⟨?_, ?_, ?_⟩
  · unfold search
    rw [if_neg hq, if_pos rfl]
    exact hsm
  · unfold search
    rw [if_neg hq, if_pos rfl]
    show 1 ≤ (search_smart db (pyStrip query) (filters.getD emptyFilters)
      limit offset).length
    rw [hsm]
    exact Nat.one_le_iff_ne_zero.2 (fun h => hex (List.eq_nil_of_length_eq_zero h))
  · unfold search
    rw [if_neg hq, if_pos rfl]

theorem C1_smart_fallback_witness :
    (search dbNoFts "git" "smart" none 100 0 0).results
      = search_exact dbNoFts (pyStrip "git")
          ((none : Option Filters).getD emptyFilters) 100 0 ∧
    1 ≤ (search dbNoFts "git" "smart" none 100 0 0).count ∧
    (search dbNoFts "git" "smart" none 100 0 0).mode_used = "smart" :=
  C1_smart_fallback dbNoFts "git" none 100 0 0 (by decide) (by decide)
    (by decide)

/-- The `i.is_active = 1` conjunct of the `search_basic` WHERE clause. -/
theorem basicPred_active {db : DB} {q : String} {i : Item}
    (h : FTS5Manager.basicPred db q i = true) : i.is_active = true := by
  simp only [FTS5Manager.basicPred, Bool.and_eq_true] at h
  exact h.2

/-- The `i.is_active = 1` conjunct of the `search_with_filters` WHERE
clause. -/
theorem filtersPred_active {db : DB} {q : String}
    {it : Option (List String)} {cs : Option (List Nat)}
    {fav sen : Option Bool} {df dt : Option Nat} {muc : Option Nat}
    {i : Item}
    (h : FTS5Manager.filtersPred db q it cs fav sen df dt muc i = true) :
    i.is_active = true := by
  simp only [FTS5Manager.filtersPred, Bool.and_eq_true] at h
  exact h.1.1.1.1.1.1.1.2

/-- The `i.is_active = 1` conjunct of the `_search_exact` WHERE clause. -/
theorem exactPred_active {db : DB} {q : String} {f : Filters} {i : Item}
    (h : AdvancedSearchEngine.exactPred db q f i = true) :
    i.is_active = true := by
  simp only [AdvancedSearchEngine.exactPred, Bool.and_eq_true] at h
  exact h.1.1.1.1.1.1.1

/-- C5: only active items are ever returned — every result of the full-text
path (`search_basic`), the filtered full-text path (`search_with_filters`)
and the exact substring path (`_search_exact`) corresponds to an item row
whose `is_active` flag is set. -/
theorem C5_only_active :
    (∀ (db : DB) (q : String) (limit offset : Nat) (r : SearchResult),
        r ∈ FTS5Manager.search_basic db q limit offset →
        ∃ i ∈ db.items, i.id = r.id ∧ i.is_active = true) ∧
    (∀ (db : DB) (q : String) (it : Option (List String))
        (cs : Option (List Nat)) (fav sen : Option Bool)
        (df dt : Option Nat) (muc : Option Nat) (limit : Nat)
        (r : SearchResult),
        r ∈ FTS5Manager.search_with_filters db q it cs fav sen df dt muc
            limit →
        ∃ i ∈ db.items, i.id = r.id ∧ i.is_active = true) ∧
    (∀ (db : DB) (q : String) (f : Filters) (limit offset : Nat)
        (r : SearchResult),
        r ∈ AdvancedSearchEngine.search_exact db q f limit offset →
        ∃ i ∈ db.items, i.id = r.id ∧ i.is_active = true) := by
  refine ⟨?_, ?_, ?_⟩
  · intro db q limit offset r hr
    unfold FTS5Manager.search_basic at hr
    by_cases hok : db.fts_query_ok q = true
    · rw [if_pos hok] at hr
      obtain ⟨i, hi, hp, rfl⟩ := mem_pipeline hr
      exact ⟨i, hi, rfl, basicPred_active hp⟩
    · rw [if_neg hok] at hr
      exact absurd hr (List.not_mem_nil r)
  · intro db q it cs fav sen df dt muc limit r hr
    unfold FTS5Manager.search_with_filters at hr
    by_cases hok : db.fts_query_ok q = true
    · rw [if_pos hok] at hr
      obtain ⟨i, hi, hp, rfl⟩ := mem_pipeline_take hr
      exact ⟨i, hi, rfl, filtersPred_active hp⟩
    · rw [if_neg hok] at hr
      exact absurd hr (List.not_mem_nil r)
  · intro db q f limit offset r hr
    unfold AdvancedSearchEngine.search_exact at hr
    obtain ⟨i, hi, hp, rfl⟩ := mem_pipeline hr
    exact ⟨i, hi, rfl, exactPred_active hp⟩

theorem C5_only_active_witness :
    (∃ i ∈ dbAllFts.items,
        i.id = (mkResult dbAllFts item1 0 (some "red")).id ∧
        i.is_active = true) ∧
    (∃ i ∈ dbAllFts.items,
        i.id = (mkResult dbAllFts item1 0 none).id ∧ i.is_active = true) ∧
    (∃ i ∈ dbNoFts.items,
        i.id = (mkResult dbNoFts item1 0 none).id ∧ i.is_active = true) :=
  ⟨C5_only_active.1 dbAllFts "git" 100 0
      (mkResult dbAllFts item1 0 (some "red")) (by decide),
   C5_only_active.2.1 dbAllFts "git" none none none none none none none 100
      (mkResult dbAllFts item1 0 none) (by decide),
   C5_only_active.2.2 dbNoFts "git" emptyFilters 100 0
      (mkResult dbNoFts item1 0 none) (by decide)⟩

/-- C6: every result of the exact substring path carries the fixed sentinel
`rank_score = 0`, and the result list is ordered by `use_count` descending
with ties broken by `last_used` descending (the `exactLe` relation). -/
theorem C6_exact_rank_and_order (db : DB) (q : String) (f : Filters)
    (limit offset : Nat) :
    (∀ r ∈ AdvancedSearchEngine.search_exact db q f limit offset,
        r.rank_score = 0) ∧
    List.Sorted exactLe (AdvancedSearchEngine.search_exact db q f limit
      offset) := by
  constructor
  · intro r hr
    unfold AdvancedSearchEngine.search_exact at hr
    obtain ⟨i, _, _, rfl⟩ := mem_pipeline hr
    rfl
  · unfold AdvancedSearchEngine.search_exact
    exact sorted_pipeline exactLe _ limit offset

theorem C6_exact_rank_and_order_witness :
    (mkResult dbNoFts item1 0 none).rank_score = 0 ∧
    List.Sorted exactLe
      (AdvancedSearchEngine.search_exact dbNoFts "git" emptyFilters 100 0) :=
  ⟨(C6_exact_rank_and_order dbNoFts "git" emptyFilters 100 0).1
      (mkResult dbNoFts item1 0 none) (by decide),
   (C6_exact_rank_and_order dbNoFts "git" emptyFilters 100 0).2⟩

/-- Membership characterization for `search_with_filters`: every returned
row is built from a store item satisfying the full WHERE clause. -/
theorem mem_search_with_filters {db : DB} {q : String}
    {it : Option (List String)} {cs : Option (List Nat)}
    {fav sen : Option Bool} {df dt : Option Nat} {muc : Option Nat}
    {limit : Nat} {r : SearchResult}
    (h : r ∈ FTS5Manager.search_with_filters db q it cs fav sen df dt muc
        limit) :
    ∃ i ∈ db.items,
      FTS5Manager.filtersPred db q it cs fav sen df dt muc i = true ∧
      r = mkResult db i (db.bm25_plain q i.id) none := by
  unfold FTS5Manager.search_with_filters at h
  by_cases hok : db.fts_query_ok q = true
  · rw [if_pos hok] at h
    exact mem_pipeline_take h
  · rw [if_neg hok] at h
    exact absurd h (List.not_mem_nil r)

/-- Membership characterization for `_search_exact`: every returned row is
built (with sentinel rank 0) from a store item satisfying the WHERE
clause. -/
theorem mem_search_exact {db : DB} {q : String} {f : Filters}
    {limit offset : Nat} {r : SearchResult}
    (h : r ∈ AdvancedSearchEngine.search_exact db q f limit offset) :
    ∃ i ∈ db.items, AdvancedSearchEngine.exactPred db q f i = true ∧
      r = mkResult db i 0 none := by
  unfold AdvancedSearchEngine.search_exact at h
  exact mem_pipeline h

/-- The filters dictionary `{'is_favorite': True, 'min_use_count': 5}`. -/
def c7Filters : Filters :=
  { emptyFilters with is_favorite := some true, min_use_count := some 5 }

/-- C7: filter conjunction on the full-text path — with filters
`{'is_favorite': True, 'min_use_count': 5}`, every result returned through
the FTS5 mode satisfies both predicates, each conjoined (ANDed) with the
index match clause: the result's item is favorite, has `use_count ≥ 5`, and
matches the full-text index. -/
theorem C7_filter_conjunction (db : DB) (query : String)
    (limit offset : Nat) (elapsed : Rat) (r : SearchResult)
    (hr : r ∈ (search db query "fts5" (some c7Filters) limit offset
        elapsed).results) :
    r.is_favorite = true ∧ 5 ≤ r.use_count ∧
    ∃ i ∈ db.items, i.id = r.id ∧
      db.fts_match (pyStrip query) i.id = true := by
  by_cases hq : pyStrip query = ""
  · exfalso
    unfold search at hr
    rw [if_pos hq] at hr
    exact absurd hr (List.not_mem_nil r)
  · unfold search at hr
    rw [if_neg hq, if_neg (by decide : ¬("fts5" : String) = "smart"),
      if_pos rfl] at hr
    unfold search_fts5 at hr
    obtain ⟨i, hi, hp, rfl⟩ := mem_search_with_filters hr
    have hfav : i.is_favorite = true := by
      cases hb : i.is_favorite
      · simp [FTS5Manager.filtersPred, hb, c7Filters, emptyFilters] at hp
      · rfl
    have hmuc : 5 ≤ i.use_count := by
      by_contra hn
      simp [FTS5Manager.filtersPred, hn, c7Filters, emptyFilters] at hp
    have hm : db.fts_match (pyStrip query) i.id = true := by
      cases hb : db.fts_match (pyStrip query) i.id
      · simp [FTS5Manager.filtersPred, hb, c7Filters, emptyFilters] at hp
      · rfl
    exact ⟨hfav, hmuc, i, hi, rfl, hm⟩

theorem C7_filter_conjunction_witness :
    (mkResult dbAllFts item1 0 none).is_favorite = true ∧
    5 ≤ (mkResult dbAllFts item1 0 none).use_count ∧
    ∃ i ∈ dbAllFts.items, i.id = (mkResult dbAllFts item1 0 none).id ∧
      dbAllFts.fts_match (pyStrip "git") i.id = true :=
  C7_filter_conjunction dbAllFts "git" 100 0 0
    (mkResult dbAllFts item1 0 none) (by decide)

/-- The legacy-shape filters dictionary `{'date_from': '2026-01-01'}`. -/
def c8LegacyFilters : Filters :=
  { emptyFilters with date_from := some 20260101 }

/-- C8 counterexample: in `exact` mode the legacy bare `date_from` key does
NOT filter on the creation timestamp.  The store's only item was created on
2025-01-05; a legacy `date_from` of 2026-01-01 should exclude it, yet the
exact path returns it anyway (`_search_exact` never reads the bare
`date_from`/`date_to` keys). -/
theorem C8_counterexample :
    ((search dbAllFts "git" "exact" (some c8LegacyFilters) 100 0 0).results.map
        SearchResult.created_at) = [20250105] ∧
    20250105 < 20260101 := by
  constructor <;> decide

/-- C8 amended: the FTS5 path accepts both date-range shapes — the legacy
bare `date_from`/`date_to` keys filter on the creation timestamp, and the
modern `date_range` object takes precedence when both are present — but the
exact path applies only the modern `date_range` shape and silently ignores
the legacy bare keys. -/
theorem C8_date_shapes :
    (∀ (db : DB) (query : String) (f : Filters) (limit offset : Nat)
        (elapsed : Rat) (r : SearchResult), f.date_range = none →
        r ∈ (search db query "fts5" (some f) limit offset elapsed).results →
        (∀ d, f.date_from = some d → d ≤ r.created_at) ∧
        (∀ d, f.date_to = some d → r.created_at ≤ d)) ∧
    (∀ (db : DB) (query : String) (f : Filters) (dr : DateRange)
        (limit offset : Nat), f.date_range = some dr →
        search_fts5 db query f limit offset
          = search_fts5 db query
              { f with date_from := none, date_to := none } limit offset) ∧
    (∀ (db : DB) (query : String) (f : Filters) (limit offset : Nat),
        f.date_range = none →
        AdvancedSearchEngine.search_exact db query f limit offset
          = AdvancedSearchEngine.search_exact db query
              { f with date_from := none, date_to := none } limit
              offset) := by
  refine ⟨?_, ?_, ?_⟩
  · intro db query f limit offset elapsed r hdr hr
    by_cases hq : pyStrip query = ""
    · exfalso
      unfold search at hr
      rw [if_pos hq] at hr
      exact absurd hr (List.not_mem_nil r)
    · unfold search at hr
      rw [if_neg hq, if_neg (by decide : ¬("fts5" : String) = "smart"),
        if_pos rfl] at hr
      unfold search_fts5 at hr
      simp only [Option.getD_some, hdr] at hr
      obtain ⟨i, _, hp, rfl⟩ := mem_search_with_filters hr
      constructor
      · intro d hd
        show d ≤ i.created_at
        by_contra hn
        simp [FTS5Manager.filtersPred, hd, hn] at hp
      · intro d hd
        show i.created_at ≤ d
        by_contra hn
        simp [FTS5Manager.filtersPred, hd, hn] at hp
  · intro db query f dr limit offset h
    obtain ⟨it, cs, fav, sen, df, dt, drg, muc⟩ := f
    have h' : drg = some dr := h
    subst h'
    rfl
  · intro db query f limit offset h
    obtain ⟨it, cs, fav, sen, df, dt, drg, muc⟩ := f
    have h' : drg = none := h
    subst h'
    rfl

/-- Legacy-shape filters selecting the window 2025-01-01 .. 2025-01-10. -/
def c8WindowFilters : Filters :=
  { emptyFilters with date_from := some 20250101, date_to := some 20250110 }

/-- Both-shapes filters: a modern `date_range` object alongside legacy
bare keys. -/
def c8BothFilters : Filters :=
  { emptyFilters with
    date_from := some 1
    date_to := some 2
    date_range := some ⟨some 20250101, some 20250110, none⟩ }

theorem C8_date_shapes_witness :
    20250101 ≤ (mkResult dbAllFts item1 0 none).created_at ∧
    search_fts5 dbAllFts "git" c8BothFilters 100 0
      = search_fts5 dbAllFts "git"
          { c8BothFilters with date_from := none, date_to := none } 100 0 ∧
    AdvancedSearchEngine.search_exact dbAllFts "git" c8LegacyFilters 100 0
      = AdvancedSearchEngine.search_exact dbAllFts "git"
          { c8LegacyFilters with date_from := none, date_to := none } 100
          0 :=
  ⟨(C8_date_shapes.1 dbAllFts "git" c8WindowFilters 100 0 0
      (mkResult dbAllFts item1 0 none) (by rfl) (by decide)).1 20250101
      (by rfl),
   C8_date_shapes.2.1 dbAllFts "git" c8BothFilters
      ⟨some 20250101, some 20250110, none⟩ 100 0 (by rfl),
   C8_date_shapes.2.2 dbAllFts "git" c8LegacyFilters 100 0 (by rfl)⟩

/-- C9: tag consistency across strategies — whenever a full-text-path result
and an exact-path result carry the same item id, their tag lists are
identical (both are produced by the same per-item lookup
`get_tags_by_item`). -/
theorem C9_tags_consistent (db : DB) (q1 q2 : String)
    (it : Option (List String)) (cs : Option (List Nat))
    (fav sen : Option Bool) (df dt : Option Nat) (muc : Option Nat)
    (limit1 : Nat) (f2 : Filters) (limit2 offset2 : Nat)
    (r1 r2 : SearchResult)
    (h1 : r1 ∈ FTS5Manager.search_with_filters db q1 it cs fav sen df dt
        muc limit1)
    (h2 : r2 ∈ AdvancedSearchEngine.search_exact db q2 f2 limit2 offset2)
    (hid : r1.id = r2.id) : r1.tags = r2.tags := by
  obtain ⟨i1, _, _, rfl⟩ := mem_search_with_filters h1
  obtain ⟨i2, _, _, rfl⟩ := mem_search_exact h2
  show db.get_tags_by_item i1.id = db.get_tags_by_item i2.id
  have h : i1.id = i2.id := hid
  rw [h]

theorem C9_tags_consistent_witness :
    (mkResult dbAllFts item1 0 none).tags
      = (mkResult dbAllFts item1 0 none).tags :=
  C9_tags_consistent dbAllFts "git" "git" none none none none none none
    none 100 emptyFilters 100 0 (mkResult dbAllFts item1 0 none)
    (mkResult dbAllFts item1 0 none) (by decide) (by decide) rfl

/-- C10: the offset argument has no effect on the full-text dispatch path —
`_search_fts5` drops it before calling `search_with_filters` — so FTS5-mode
envelopes are identical for any two offsets, and so are smart-mode
envelopes whenever the full-text strategy yields results (only the exact
path applies `OFFSET`). -/
theorem C10_offset_ignored_fts :
    (∀ (db : DB) (query : String) (filters : Option Filters)
        (limit o1 o2 : Nat) (elapsed : Rat),
        search db query "fts5" filters limit o1 elapsed
          = search db query "fts5" filters limit o2 elapsed) ∧
    (∀ (db : DB) (query : String) (filters : Option Filters)
        (limit o1 o2 : Nat) (elapsed : Rat),
        search_fts5 db (pyStrip query) (filters.getD emptyFilters) limit
            o1 ≠ [] →
        search db query "smart" filters limit o1 elapsed
          = search db query "smart" filters limit o2 elapsed) := by
  constructor
  · intro db query filters limit o1 o2 elapsed
    by_cases hq : pyStrip query = ""
    · simp only [search, if_pos hq]
    · simp only [search, if_neg hq,
        if_neg (by decide : ¬("fts5" : String) = "smart"),
        if_pos (rfl : ("fts5" : String) = "fts5"), if_true]
      rfl
  · intro db query filters limit o1 o2 elapsed hne
    by_cases hq : pyStrip query = ""
    · simp only [search, if_pos hq]
    · simp only [search, if_neg hq,
        if_pos (rfl : ("smart" : String) = "smart"), if_true]
      have h2 : AdvancedSearchEngine.search_smart db (pyStrip query)
          (filters.getD emptyFilters) limit o2
          = AdvancedSearchEngine.search_smart db (pyStrip query)
              (filters.getD emptyFilters) limit o1 := by
        simp only [AdvancedSearchEngine.search_smart]
        have hf : AdvancedSearchEngine.search_fts5 db (pyStrip query)
            (filters.getD emptyFilters) limit o2
            = AdvancedSearchEngine.search_fts5 db (pyStrip query)
                (filters.getD emptyFilters) limit o1 := rfl
        rw [hf, if_neg hne, if_neg hne]
      rw [h2]

theorem C10_offset_ignored_fts_witness :
    search dbAllFts "git" "smart" none 100 0 0
      = search dbAllFts "git" "smart" none 100 7 0 :=
  C10_offset_ignored_fts.2 dbAllFts "git" none 100 0 7 0 (by decide)
